import Mathlib

/-!
Shallow embedding of the Bookora appointment subsystem.

Sources embedded:
  * `app/models/appointments.py` — the `Appointment` model, its status enum,
    the `can_be_cancelled` / `can_be_rescheduled` predicates, and the
    `mark_completed` / `cancel` / `reschedule` methods.
  * `app/api/v1/endpoints/appointments.py` — the `book`, `confirm`, `cancel`,
    `complete` and `available-slots` endpoints.
  * `app/tasks/appointment_tasks.py` — the reminder sweep
    (`check_and_send_reminders`) and the missed-appointment sweep
    (`mark_missed_appointments`).

Conventions of the embedding:
  * All instants are `Nat` minutes on a common clock; a duration is `Nat`
    minutes.  The Python code compares `datetime`s whose differences the
    model only ever tests in whole-minute multiples (2 hours = 120 min,
    1 hour = 60 min, 15-minute slot steps), so minute granularity is exact.
  * Entity ids are `Nat`.
  * Database queries become filters over a `List Appointment` standing for
    the appointment table; per-row updates become `List.map`.
  * HTTP error responses become `Except String` with the endpoint's
    `detail` string.
-/

namespace Bookora

/-- `AppointmentStatus` enum of `app/models/appointments.py`. -/
inductive AppointmentStatus where
  | pending
  | confirmed
  | in_progress
  | completed
  | cancelled
  | no_show
  | rescheduled
  deriving DecidableEq, Repr

open AppointmentStatus

/-- The `Appointment` model (`app/models/appointments.py`): the columns the
appointment endpoints and tasks read or write.  `confirmedAt` and the
reminder flags are included; relationship attributes are represented by the
foreign-key ids. -/
structure Appointment where
  id : Nat
  clientId : Nat
  businessId : Nat
  serviceId : Nat
  appointmentDate : Nat
  durationMinutes : Nat
  status : AppointmentStatus
  confirmationCode : Option String
  servicePrice : Option Nat
  depositAmount : Option Nat
  clientNotes : Option String
  clientPhoneOverride : Option String
  cancelledAt : Option Nat
  cancellationReason : Option String
  cancelledByClient : Option Bool
  originalAppointmentId : Option Nat
  rescheduledFrom : Option Nat
  confirmedAt : Option Nat
  completedAt : Option Nat
  actualDuration : Option Nat
  reminder24hSent : Bool
  reminder2hSent : Bool
  deriving DecidableEq, Repr

namespace Appointment

/-- `Appointment.end_time`: `appointment_date + timedelta(minutes=duration_minutes)`. -/
def end_time (a : Appointment) : Nat :=
  a.appointmentDate + a.durationMinutes

/-- `Appointment.can_be_cancelled` evaluated at instant `now`.
Source: returns `False` for `completed`/`cancelled`/`no_show`; otherwise
requires `(appointment_date - now).total_seconds() > 2 * 3600`.  In whole
minutes this is `appointment_date - now > 120`; with truncated `Nat`
subtraction the test is also `False` whenever `appointment_date ≤ now`,
exactly as the signed-seconds comparison is. -/
def can_be_cancelled (now : Nat) (a : Appointment) : Bool :=
  if a.status = completed ∨ a.status = cancelled ∨ a.status = no_show then
    false
  else
    decide (a.appointmentDate - now > 120)

/-- `Appointment.can_be_rescheduled`:
`can_be_cancelled and status not in [IN_PROGRESS]`. -/
def can_be_rescheduled (now : Nat) (a : Appointment) : Bool :=
  can_be_cancelled now a && decide (a.status ≠ in_progress)

/-- `Appointment.mark_completed`: sets `completed`, stamps `completed_at`;
`if actual_duration:` is Python truthiness, so `0` is not recorded. -/
def mark_completed (now : Nat) (actualDur : Option Nat) (a : Appointment) :
    Appointment :=
  let a := { a with status := completed, completedAt := some now }
  match actualDur with
  | some d => if d ≠ 0 then { a with actualDuration := some d } else a
  | none => a

/-- `Appointment.cancel`: sets `cancelled`, stamps `cancelled_at`, records
reason, notes-free variant (the notes column is not read by any claim). -/
def cancel (now : Nat) (reason : Option String) (byClient : Bool)
    (a : Appointment) : Appointment :=
  { a with status := cancelled, cancelledAt := some now,
           cancellationReason := reason, cancelledByClient := some byClient }

/-- `Appointment.reschedule(new_datetime)`: marks the receiver `rescheduled`
and returns, together with it, a fresh appointment carrying over
client/business/service, duration, price, deposit, notes and phone override,
with `original_appointment_id = self.id` and
`rescheduled_from = self.appointment_date`.  The new row takes the column
defaults: status `pending`, reminder flags `False`, everything else NULL.
The method performs no precondition or conflict check. -/
def reschedule (newDatetime : Nat) (newId : Nat) (a : Appointment) :
    Appointment × Appointment :=
  ({ a with status := rescheduled },
   { id := newId
     clientId := a.clientId
     businessId := a.businessId
     serviceId := a.serviceId
     appointmentDate := newDatetime
     durationMinutes := a.durationMinutes
     status := pending
     confirmationCode := none
     servicePrice := a.servicePrice
     depositAmount := a.depositAmount
     clientNotes := a.clientNotes
     clientPhoneOverride := a.clientPhoneOverride
     cancelledAt := none
     cancellationReason := none
     cancelledByClient := none
     originalAppointmentId := some a.id
     rescheduledFrom := some a.appointmentDate
     confirmedAt := none
     completedAt := none
     actualDuration := none
     reminder24hSent := false
     reminder2hSent := false })

end Appointment

open Appointment

/-! ## Endpoints (`app/api/v1/endpoints/appointments.py`) -/

/-- The per-row conflict condition of the `book_appointment` query
(lines 51–66).  With `end = appointment_date + duration_minutes`
(the `func.datetime(..., "+{duration} minutes")` expression) it is

  `business_id == b` and `status in {confirmed, pending}` and
  `((start <= cand_start and end > cand_start) or
    (start < cand_end and end >= cand_end))`. -/
def bookingConflict (biz candStart candEnd : Nat) (a : Appointment) : Bool :=
  decide (a.businessId = biz) &&
  (decide (a.status = confirmed) || decide (a.status = pending)) &&
  ((decide (a.appointmentDate ≤ candStart) && decide (a.end_time > candStart)) ||
   (decide (a.appointmentDate < candEnd) && decide (a.end_time ≥ candEnd)))

/-- The overlap predicate the spec states for the Conflict Detector:
`start < candidate_end AND end > candidate_start` over half-open intervals,
restricted to the business's `pending`/`confirmed` appointments.
Written from the spec's words, for comparison with `bookingConflict`. -/
def specConflict (biz candStart candEnd : Nat) (a : Appointment) : Bool :=
  decide (a.businessId = biz) &&
  (decide (a.status = confirmed) || decide (a.status = pending)) &&
  decide (a.appointmentDate < candEnd) && decide (a.end_time > candStart)

/-- `book_appointment`: after the client/service lookups, rejects inactive
businesses, computes `appointment_end = appointment_date + service duration`,
runs the conflict query over the appointment table `db`, and on success
creates a `pending` appointment with a price snapshot and confirmation code
`code`. -/
def book_appointment (db : List Appointment) (businessActive : Bool)
    (newId clientId biz serviceId : Nat) (serviceDuration : Nat)
    (servicePrice : Option Nat) (apptDate : Nat)
    (clientNotes clientPhone : Option String) (code : String) :
    Except String Appointment :=
  if !businessActive then
    .error "Business is not accepting appointments"
  else
    let apptEnd := apptDate + serviceDuration
    if db.any (bookingConflict biz apptDate apptEnd) then
      .error "Time slot not available"
    else
      .ok { id := newId
            clientId := clientId
            businessId := biz
            serviceId := serviceId
            appointmentDate := apptDate
            durationMinutes := serviceDuration
            status := pending
            confirmationCode := some code
            servicePrice := servicePrice
            depositAmount := none
            clientNotes := clientNotes
            clientPhoneOverride := clientPhone
            cancelledAt := none
            cancellationReason := none
            cancelledByClient := none
            originalAppointmentId := none
            rescheduledFrom := none
            confirmedAt := none
            completedAt := none
            actualDuration := none
            reminder24hSent := false
            reminder2hSent := false }

/-- `confirm_appointment` (lines 147–172): business-only; rejects any status
other than `pending`; on success sets `confirmed` and stamps
`confirmed_at = now`. -/
def confirm_appointment (callerIsOwner : Bool) (now : Nat) (a : Appointment) :
    Except String Appointment :=
  if !callerIsOwner then
    .error "Only the business can confirm appointments"
  else if a.status ≠ pending then
    .error "Only pending appointments can be confirmed"
  else
    .ok { a with status := confirmed, confirmedAt := some now }

/-- `cancel_appointment` (lines 175–213): the caller is the appointment's
client (`callerIsClient`) or its business (`callerIsBusiness`); the client
path sets `cancelled_by_client` before any status check.  The only status
guard is `status in [COMPLETED, CANCELLED]`; on success sets `cancelled`,
stamps `cancelled_at = now` and, when a (truthy) reason string was passed,
records it.  No lead-time check is performed. -/
def cancel_appointment (callerIsClient callerIsBusiness : Bool)
    (reason : Option String) (now : Nat) (a : Appointment) :
    Except String Appointment :=
  let a := if callerIsClient then { a with cancelledByClient := some true } else a
  if !(callerIsClient || callerIsBusiness) then
    .error "Access denied to this appointment"
  else if a.status = completed ∨ a.status = cancelled then
    .error "Cannot cancel completed or already cancelled appointment"
  else
    .ok { a with status := cancelled, cancelledAt := some now,
                 cancellationReason :=
                   match reason with
                   | some s => if s ≠ "" then some s else a.cancellationReason
                   | none => a.cancellationReason }

/-- `complete_appointment` (lines 216–241): business-only; rejects any status
other than `confirmed`; on success sets `completed` and stamps
`completed_at = now`.  The endpoint takes no actual-duration argument and
does not call `Appointment.mark_completed`. -/
def complete_appointment (callerIsOwner : Bool) (now : Nat) (a : Appointment) :
    Except String Appointment :=
  if !callerIsOwner then
    .error "Only the business can complete appointments"
  else if a.status ≠ confirmed then
    .error "Only confirmed appointments can be completed"
  else
    .ok { a with status := completed, completedAt := some now }

/-- The per-appointment overlap test of the slot loop (lines 311–318):
`current_time < appt_end and slot_end > appt_start`, the standard half-open
overlap.  `appt_end` is built from the appointment's duration (the source
writes `appointment.service_duration or service.duration_minutes`; the
`Appointment` model has no `service_duration` attribute, so the duration of
the booked appointment is the value the expression is after). -/
def slotConflict (slotStart slotEnd : Nat) (a : Appointment) : Bool :=
  decide (slotStart < a.end_time) && decide (slotEnd > a.appointmentDate)

/-- The `while` loop of `get_available_slots` (lines 306–328): starting at
`cursor`, while `cursor + dur ≤ closeT` emit `cursor` whenever its interval
`[cursor, cursor+dur)` overlaps no existing appointment, then step 15
minutes.  Break times are never consulted. -/
def slotsLoop (closeT dur : Nat) (existing : List Appointment) (cursor : Nat) :
    List Nat :=
  if cursor + dur ≤ closeT then
    (if existing.all (fun a => !slotConflict cursor (cursor + dur) a) then
      [cursor]
    else []) ++ slotsLoop closeT dur existing (cursor + 15)
  else []
termination_by closeT + 1 - cursor
decreasing_by omega

/-- `get_available_slots` (lines 244–336) reduced to its data: for business
hours `[openT, closeT]` and service duration `dur`, filter the day's
appointment rows to the business's `pending`/`confirmed` ones (the
`existing_appointments` query, lines 291–299) and run the slot loop from
`open_time`.  `BusinessHours.break_start`/`break_end` exist on the model but
are not read anywhere in the endpoint. -/
def get_available_slots (openT closeT dur : Nat) (db : List Appointment)
    (biz : Nat) : List Nat :=
  let existing := db.filter fun a =>
    decide (a.businessId = biz) &&
    (decide (a.status = pending) || decide (a.status = confirmed))
  slotsLoop closeT dur existing openT

/-! ## Background tasks (`app/tasks/appointment_tasks.py`) -/

/-- Selection of the 24-hour reminder query (lines 72–79):
`appointment_date` in `[now+24h, now+24h+30m]`, status `confirmed`,
`reminder_24h_sent == False`. -/
def needs24h (now : Nat) (a : Appointment) : Bool :=
  decide (a.appointmentDate ≥ now + 1440) &&
  decide (a.appointmentDate ≤ now + 1470) &&
  decide (a.status = confirmed) && !a.reminder24hSent

/-- Selection of the 2-hour reminder query (lines 105–112):
`appointment_date` in `[now+2h, now+2h+30m]`, status `confirmed`,
`reminder_2h_sent == False`. -/
def needs2h (now : Nat) (a : Appointment) : Bool :=
  decide (a.appointmentDate ≥ now + 120) &&
  decide (a.appointmentDate ≤ now + 150) &&
  decide (a.status = confirmed) && !a.reminder2hSent

/-- Per-row effect of the 24h loop (lines 84–98): a selected appointment is
dispatched to `send_reminder_notification` (whose success the oracle
`sendOk` reports per appointment id) and its flag is set only when the send
succeeded. -/
def reminder24Step (now : Nat) (sendOk : Nat → Bool) (a : Appointment) :
    Appointment :=
  if needs24h now a && sendOk a.id then
    { a with reminder24hSent := true } else a

/-- Per-row effect of the 2h loop (lines 117–131), same shape. -/
def reminder2Step (now : Nat) (sendOk : Nat → Bool) (a : Appointment) :
    Appointment :=
  if needs2h now a && sendOk a.id then
    { a with reminder2hSent := true } else a

/-- Per-row effect of one pass of `check_and_send_reminders`: the 24h loop
runs first, then the 2h loop over the same session state. -/
def reminderStep (now : Nat) (sendOk : Nat → Bool) (a : Appointment) :
    Appointment :=
  reminder2Step now sendOk (reminder24Step now sendOk a)

/-- One run of `check_and_send_reminders` over table `db` at instant `now`:
returns the updated table together with the ids dispatched to the notifier
for the 24h and the 2h milestone. -/
def check_and_send_reminders (now : Nat) (sendOk : Nat → Bool)
    (db : List Appointment) : List Appointment × List Nat × List Nat :=
  (db.map (reminderStep now sendOk),
   (db.filter (needs24h now)).map (fun a => a.id),
   (db.filter (needs2h now)).map (fun a => a.id))

/-- Per-row effect of `mark_missed_appointments` (lines 249–272): rows with
`appointment_date < now - 1 hour` and status `confirmed` are set to
`cancelled`; everything else is untouched.  The cutoff compares the START
time `appointment_date`, not the end time. -/
def markMissedStep (now : Nat) (a : Appointment) : Appointment :=
  if decide (a.appointmentDate < now - 60) && decide (a.status = confirmed) then
    { a with status := cancelled }
  else a

/-- `mark_missed_appointments` over the whole table. -/
def mark_missed_appointments (now : Nat) (db : List Appointment) :
    List Appointment :=
  db.map (markMissedStep now)

/-! ## Concrete appointment rows used as test fixtures

Clock origin: minute 0 is midnight of the scenario day far in the past of
nothing; minutes-of-day map 09:00 ↦ 540, 17:00 ↦ 1020, 14:00 ↦ 840. -/

/-- A throwaway pending appointment row; fixtures below override fields. -/
def baseApt : Appointment :=
  { id := 1, clientId := 1, businessId := 7, serviceId := 2,
    appointmentDate := 0, durationMinutes := 30, status := pending,
    confirmationCode := none, servicePrice := some 50, depositAmount := none,
    clientNotes := some "bring id", clientPhoneOverride := none,
    cancelledAt := none, cancellationReason := none, cancelledByClient := none,
    originalAppointmentId := none, rescheduledFrom := none,
    confirmedAt := none, completedAt := none, actualDuration := none,
    reminder24hSent := false, reminder2hSent := false }

/-- Confirmed appointment 14:15–14:30, strictly inside candidate 14:00–15:00. -/
def containedApt : Appointment :=
  { baseApt with appointmentDate := 855, durationMinutes := 15,
                 status := confirmed }

/-- The §8 scenario's existing booking: confirmed 10:00–10:30. -/
def bookedApt : Appointment :=
  { baseApt with appointmentDate := 600, status := confirmed }

/-- The §8 scenario's lunch break 12:00–13:00, as the synthetic booked
interval the spec says it should be treated as. -/
def breakApt : Appointment :=
  { baseApt with appointmentDate := 720, durationMinutes := 60,
                 status := confirmed }

/-- The §8 scenario's appointment table for the day. -/
def scenarioDb : List Appointment := [bookedApt]

/-- A `no_show` appointment far in the future. -/
def noShowApt : Appointment :=
  { baseApt with appointmentDate := 100000, status := no_show }

/-- A confirmed appointment starting at minute 1090: 90 minutes after the
reference instant 1000. -/
def leadApt : Appointment :=
  { baseApt with appointmentDate := 1090, status := confirmed }

/-- A `completed` appointment. -/
def completedApt : Appointment :=
  { baseApt with appointmentDate := 100000, status := completed }

/-- An `in_progress` appointment. -/
def inProgressApt : Appointment :=
  { baseApt with status := in_progress }

/-- A confirmed appointment far in the future. -/
def confirmedApt : Appointment :=
  { baseApt with appointmentDate := 100000, status := confirmed }

/-- A confirmed appointment at minute 1450: inside the 24h reminder window
of instant 10 (window [1450, 1480]) and of instant 0 (window [1440, 1470]). -/
def reminderApt : Appointment :=
  { baseApt with appointmentDate := 1450, status := confirmed }

/-- A confirmed appointment 09:00 a.m.-style row for the missed sweep: start
9900, duration 60, so its end 9960 is 40 minutes before instant 10000. -/
def endedRecentlyApt : Appointment :=
  { baseApt with appointmentDate := 9900, durationMinutes := 60,
                 status := confirmed }

/-- A pending appointment at minute 1000, far enough from instant 0. -/
def pendingFutureApt : Appointment :=
  { baseApt with appointmentDate := 1000 }

/-! ## Claim theorems -/

/-- Claim C1.  The spec's conflict predicate (`start < candidate_end AND
end > candidate_start`) flags the confirmed appointment 14:15–14:30 against
the candidate interval 14:00–15:00, but `book_appointment` finds no conflict
for that request and books it: the endpoint's two-disjunct test
(`start ≤ cand_start < end` or `start < cand_end ≤ end`) misses existing
appointments lying strictly inside the candidate interval, so the booking
does NOT fail with `SlotUnavailable` although a same-business
pending/confirmed appointment overlaps it. -/
theorem book_accepts_contained_overlap :
    specConflict 7 840 900 containedApt = true ∧
    bookingConflict 7 840 900 containedApt = false ∧
    (book_appointment [containedApt] true 2 1 7 2 60 (some 50) 840
        none none "ZZZ11AA2").isOk = true := by
  refine ⟨by decide, by decide, ?_⟩
  rfl

/-- Claim C2.  `no_show` is not immutable: `cancel_appointment` only rejects
`completed` and `cancelled`, so an authorized cancel of a `no_show`
appointment succeeds and rewrites its status to `cancelled` (even though the
model's own `can_be_cancelled` calls `no_show` non-cancellable), and the
unguarded model method `reschedule` rewrites it to `rescheduled`; `confirm`
and `complete` do reject it. -/
theorem cancel_mutates_no_show :
    noShowApt.status = no_show ∧
    can_be_cancelled 0 noShowApt = false ∧
    (cancel_appointment true false none 1000 noShowApt).toOption.map
        Appointment.status = some cancelled ∧
    ((noShowApt.reschedule 200000 9).1).status = rescheduled ∧
    confirm_appointment true 0 noShowApt =
      .error "Only pending appointments can be confirmed" ∧
    complete_appointment true 0 noShowApt =
      .error "Only confirmed appointments can be completed" := by
  exact ⟨rfl, by decide, rfl, rfl, rfl, rfl⟩

/-- Claim C3.  The cancel endpoint enforces no lead-time rule: a confirmed
appointment starting 90 minutes after `now` (which the model's
`can_be_cancelled` rejects under the 2-hour rule) is cancelled successfully
by its client through `cancel_appointment`; no `CancellationWindowClosed`
error exists in the code. -/
theorem cancel_ignores_lead_time :
    can_be_cancelled 1000 leadApt = false ∧
    (cancel_appointment true false none 1000 leadApt).toOption.map
        Appointment.status = some cancelled := by
  exact ⟨by decide, rfl⟩

/-- Claim C7.  Postconditions of `Appointment.reschedule(A, t2)`: the source
appointment A is marked `rescheduled`; the returned appointment B has
`original_appointment_id = A.id`, `start = t2`, `rescheduled_from` = A's old
start, and carries forward A's client, business, service, price and notes;
and A no longer satisfies the booking conflict predicate for any candidate
interval (rescheduled status is outside the `{pending, confirmed}` filter),
so A is excluded from all future conflict checks. -/
theorem reschedule_lineage (a : Appointment) (t2 newId : Nat)
    (biz cs ce : Nat) :
    ((a.reschedule t2 newId).1).status = rescheduled ∧
    ((a.reschedule t2 newId).2).originalAppointmentId = some a.id ∧
    ((a.reschedule t2 newId).2).appointmentDate = t2 ∧
    ((a.reschedule t2 newId).2).rescheduledFrom = some a.appointmentDate ∧
    ((a.reschedule t2 newId).2).clientId = a.clientId ∧
    ((a.reschedule t2 newId).2).businessId = a.businessId ∧
    ((a.reschedule t2 newId).2).serviceId = a.serviceId ∧
    ((a.reschedule t2 newId).2).servicePrice = a.servicePrice ∧
    ((a.reschedule t2 newId).2).clientNotes = a.clientNotes ∧
    bookingConflict biz cs ce ((a.reschedule t2 newId).1) = false ∧
    specConflict biz cs ce ((a.reschedule t2 newId).1) = false := by
  refine ⟨rfl, rfl, rfl, rfl, rfl, rfl, rfl, rfl, rfl, ?_, ?_⟩ <;>
    simp [Appointment.reschedule, bookingConflict, specConflict]

/-- Claim C8.  `Appointment.reschedule` enforces nothing: called on a
`completed` appointment (for which `can_be_rescheduled` is `false`) it still
succeeds, marks the source `rescheduled` and emits a new `pending`
appointment; no conflict detector runs anywhere on the reschedule path, and
no reschedule endpoint exists to fail with `SlotUnavailable`. -/
theorem reschedule_unguarded :
    can_be_rescheduled 0 completedApt = false ∧
    ((completedApt.reschedule 200000 9).1).status = rescheduled ∧
    ((completedApt.reschedule 200000 9).2).status = pending := by
  exact ⟨by decide, rfl, rfl⟩

/-- Claim C9 counterexample.  The complete endpoint rejects an `in_progress`
appointment (the claim says completing from `in_progress` succeeds): it
fails for every status other than `confirmed`. -/
theorem complete_rejects_in_progress :
    inProgressApt.status = in_progress ∧
    complete_appointment true 0 inProgressApt =
      .error "Only confirmed appointments can be completed" := by
  exact ⟨rfl, rfl⟩

/-- Claim C9 as amended.  For an authorized business caller,
`complete_appointment` succeeds exactly when the status is `confirmed`, and
then sets `completed` and stamps `completed_at = now`; every other status
(including `in_progress`) is rejected; no actual-duration argument exists. -/
theorem complete_confirmed_only (now : Nat) (a : Appointment) :
    ((complete_appointment true now a).isOk = true ↔ a.status = confirmed) ∧
    (a.status = confirmed →
      complete_appointment true now a =
        .ok { a with status := completed, completedAt := some now }) := by
  constructor
  · by_cases h : a.status = confirmed <;>
      simp [complete_appointment, h, Except.isOk, Except.toBool]
  · intro h
    simp [complete_appointment, h]

/-- Witness for `complete_confirmed_only` at the confirmed fixture. -/
theorem complete_confirmed_only_witness :
    complete_appointment true 5 confirmedApt =
      .ok { confirmedApt with status := completed, completedAt := some 5 } :=
  (complete_confirmed_only 5 confirmedApt).2 rfl

/-- Claim C10.  `can_be_rescheduled` is `can_be_cancelled` strengthened with
`status ∉ {in_progress}`, so any appointment reported reschedulable at an
instant is also cancellable at that instant. -/
theorem reschedulable_implies_cancellable (now : Nat) (a : Appointment)
    (h : can_be_rescheduled now a = true) :
    can_be_cancelled now a = true := by
  have := (Bool.and_eq_true _ _).mp h
  exact this.1

/-- Setting the 2h flag leaves the 24h selection unchanged. -/
theorem needs24h_set2h (now : Nat) (a : Appointment) (b : Bool) :
    needs24h now { a with reminder2hSent := b } = needs24h now a := rfl

/-- Setting the 24h flag leaves the 2h selection unchanged. -/
theorem needs2h_set24h (now : Nat) (a : Appointment) (b : Bool) :
    needs2h now { a with reminder24hSent := b } = needs2h now a := rfl

/-- The 24h loop does not change an appointment's id. -/
theorem reminder24Step_id (now : Nat) (sendOk : Nat → Bool)
    (a : Appointment) : (reminder24Step now sendOk a).id = a.id := by
  unfold reminder24Step; split <;> rfl

/-- The 2h loop leaves the 24h selection unchanged. -/
theorem needs24h_reminder2Step (now : Nat) (sendOk : Nat → Bool)
    (a : Appointment) :
    needs24h now (reminder2Step now sendOk a) = needs24h now a := by
  unfold reminder2Step; split <;> rfl

/-- The 24h loop leaves the 2h selection unchanged. -/
theorem needs2h_reminder24Step (now : Nat) (sendOk : Nat → Bool)
    (a : Appointment) :
    needs2h now (reminder24Step now sendOk a) = needs2h now a := by
  unfold reminder24Step; split <;> rfl

/-- After the 24h loop with a successful send, the row no longer matches the
24h query: either it never did, or its flag is now set. -/
theorem needs24h_after_reminder24Step (now : Nat) (sendOk : Nat → Bool)
    (a : Appointment) (hok : sendOk a.id = true) :
    needs24h now (reminder24Step now sendOk a) = false := by
  unfold reminder24Step
  cases h24 : needs24h now a with
  | true => simp [h24, hok, needs24h]
  | false => simp [h24, hok, h24]

/-- After the 2h loop with a successful send, the row no longer matches the
2h query. -/
theorem needs2h_after_reminder2Step (now : Nat) (sendOk : Nat → Bool)
    (a : Appointment) (hok : sendOk a.id = true) :
    needs2h now (reminder2Step now sendOk a) = false := by
  unfold reminder2Step
  cases h2 : needs2h now a with
  | true => simp [h2, hok, needs2h]
  | false => simp [h2, hok, h2]

/-- After one full pass whose send for `a` succeeded, `a` no longer matches
the 24h reminder query. -/
theorem needs24h_after_reminderStep (now : Nat) (sendOk : Nat → Bool)
    (a : Appointment) (hok : sendOk a.id = true) :
    needs24h now (reminderStep now sendOk a) = false := by
  unfold reminderStep
  rw [needs24h_reminder2Step]
  exact needs24h_after_reminder24Step now sendOk a hok

/-- After one full pass whose send for `a` succeeded, `a` no longer matches
the 2h reminder query. -/
theorem needs2h_after_reminderStep (now : Nat) (sendOk : Nat → Bool)
    (a : Appointment) (hok : sendOk a.id = true) :
    needs2h now (reminderStep now sendOk a) = false := by
  unfold reminderStep
  exact needs2h_after_reminder2Step now sendOk _ (by rw [reminder24Step_id]; exact hok)

/-- A failed send leaves the appointment row untouched: neither flag is set
(lines 91–95 and 124–128 guard the flag writes on the send result). -/
theorem reminderStep_of_send_failed (now : Nat) (f : Nat → Bool)
    (a : Appointment) (hfail : f a.id = false) :
    reminderStep now f a = a := by
  unfold reminderStep reminder24Step reminder2Step
  simp [hfail]

/-- Claim C5.  Running `check_and_send_reminders` twice at the same instant
with no intervening appointment changes: when the sends of the first run
succeed, the second run selects nothing for either milestone, so across the
two runs every appointment is dispatched exactly once per milestone (the
first run's dispatch lists are, by the query, exactly the eligible rows);
and a failed send leaves the row untouched — the flag stays unset and the
row is re-selected by the next sweep within the window. -/
theorem reminder_sweep_at_most_once (now : Nat) (sendOk : Nat → Bool)
    (db : List Appointment) (hok : ∀ i, sendOk i = true) :
    ((check_and_send_reminders now sendOk
        (check_and_send_reminders now sendOk db).1).2.1 = [] ∧
     (check_and_send_reminders now sendOk
        (check_and_send_reminders now sendOk db).1).2.2 = []) ∧
    (∀ f : Nat → Bool, ∀ a : Appointment, f a.id = false →
      reminderStep now f a = a ∧
      (needs24h now a = true → needs24h now (reminderStep now f a) = true) ∧
      (needs2h now a = true → needs2h now (reminderStep now f a) = true)) := by
  refine ⟨⟨?_, ?_⟩, ?_⟩
  · simp only [check_and_send_reminders, List.map_eq_nil_iff,
      List.filter_eq_nil_iff]
    intro b hb
    rcases List.mem_map.mp hb with ⟨a, _, rfl⟩
    simp [needs24h_after_reminderStep now sendOk a (hok a.id)]
  · simp only [check_and_send_reminders, List.map_eq_nil_iff,
      List.filter_eq_nil_iff]
    intro b hb
    rcases List.mem_map.mp hb with ⟨a, _, rfl⟩
    simp [needs2h_after_reminderStep now sendOk a (hok a.id)]
  · intro f a hfail
    have hstep := reminderStep_of_send_failed now f a hfail
    exact ⟨hstep, fun h => by rw [hstep, h], fun h => by rw [hstep, h]⟩

/-- Membership in the slot loop, by induction on the remaining time budget:
`t` is produced exactly when it is `cursor` plus a whole number of 15-minute
steps, its interval fits before closing, and it clashes with no existing
appointment. -/
theorem slotsLoop_mem_aux (closeT dur : Nat) (existing : List Appointment) :
    ∀ n cursor, closeT + 1 - cursor ≤ n →
      ∀ t, t ∈ slotsLoop closeT dur existing cursor ↔
        ((∃ k, t = cursor + 15 * k) ∧ t + dur ≤ closeT ∧
         ∀ a ∈ existing, slotConflict t (t + dur) a = false) := by
  intro n
  induction n with
  | zero =>
      intro cursor hle t
      rw [slotsLoop, if_neg (by omega)]
      simp only [List.not_mem_nil, false_iff]
      rintro ⟨⟨k, rfl⟩, hfit, -⟩
      omega
  | succ n ih =>
      intro cursor hle t
      rw [slotsLoop]
      by_cases hc : cursor + dur ≤ closeT
      · rw [if_pos hc, List.mem_append]
        constructor
        · rintro (hmem | hmem)
          · revert hmem
            split
            next hall =>
              intro hmem
              rcases List.mem_singleton.mp hmem with rfl
              refine ⟨⟨0, by omega⟩, hc, fun a ha => ?_⟩
              have := List.all_eq_true.mp hall a ha
              simpa using this
            next =>
              intro hmem
              cases hmem
          · rcases (ih (cursor + 15) (by omega) t).mp hmem with ⟨⟨k, rfl⟩, h1, h2⟩
            exact ⟨⟨k + 1, by omega⟩, h1, h2⟩
        · rintro ⟨⟨k, rfl⟩, hfit, hfree⟩
          cases k with
          | zero =>
              left
              simp only [Nat.mul_zero, Nat.add_zero] at hfit hfree ⊢
              have hall : existing.all
                  (fun a => !slotConflict cursor (cursor + dur) a) = true := by
                rw [List.all_eq_true]
                intro a ha
                simp [hfree a ha]
              rw [if_pos hall]
              exact List.mem_singleton.mpr rfl
          | succ k =>
              right
              exact (ih (cursor + 15) (by omega) _).mpr
                ⟨⟨k, by omega⟩, hfit, hfree⟩
      · rw [if_neg hc]
        simp only [List.not_mem_nil, false_iff]
        rintro ⟨⟨k, rfl⟩, hfit, -⟩
        omega

/-- Membership in the slot loop from any cursor. -/
theorem slotsLoop_mem (closeT dur : Nat) (existing : List Appointment)
    (cursor t : Nat) :
    t ∈ slotsLoop closeT dur existing cursor ↔
      ((∃ k, t = cursor + 15 * k) ∧ t + dur ≤ closeT ∧
       ∀ a ∈ existing, slotConflict t (t + dur) a = false) :=
  slotsLoop_mem_aux closeT dur existing (closeT + 1 - cursor) cursor le_rfl t

/-- Witness for `reminder_sweep_at_most_once`: with an always-succeeding
sender and one eligible confirmed appointment, the second run's 24h dispatch
list is empty. -/
theorem reminder_sweep_at_most_once_witness :
    (check_and_send_reminders 10 (fun _ => true)
        (check_and_send_reminders 10 (fun _ => true) [reminderApt]).1).2.1 =
      [] :=
  (reminder_sweep_at_most_once 10 (fun _ => true) [reminderApt]
    (fun _ => rfl)).1.1

/-- Witness for `reschedulable_implies_cancellable` at a pending appointment
880 minutes before its start. -/
theorem reschedulable_implies_cancellable_witness :
    can_be_rescheduled 120 pendingFutureApt = true ∧
    can_be_cancelled 120 pendingFutureApt = true :=
  ⟨by decide, reschedulable_implies_cancellable 120 pendingFutureApt (by decide)⟩

/-- Claim C4 counterexample.  In the §8 scenario (open 09:00 = 540, close
17:00 = 1020, duration 30, one confirmed booking 10:00–10:30) the endpoint
returns the 12:00 slot even though its interval [12:00, 12:30) lies inside
the 12:00–13:00 lunch break: the loop never consults
`BusinessHours.break_start`/`break_end`, so break windows are NOT excluded
like booked intervals. -/
theorem slots_ignore_break_window :
    720 ∈ get_available_slots 540 1020 30 scenarioDb 7 ∧
    breakApt.appointmentDate = 720 ∧ breakApt.end_time = 780 ∧
    slotConflict 720 (720 + 30) breakApt = true := by
  refine ⟨?_, rfl, rfl, by decide⟩
  simp only [get_available_slots]
  rw [slotsLoop_mem]
  refine ⟨⟨12, rfl⟩, by omega, ?_⟩
  intro a ha
  rcases List.mem_filter.mp ha with ⟨ha, -⟩
  rcases List.mem_singleton.mp ha with rfl
  decide

/-- Claim C4 as amended.  `get_available_slots` returns exactly the cursor
times stepped in 15-minute increments from the open time through
`close − duration` whose interval `[t, t+dur)` overlaps no pending/confirmed
appointment of the business; the break window is not excluded.  In the §8
scenario the first slot is 09:00 (540) and the last is 16:30 (990). -/
theorem available_slots_spec :
    (∀ openT closeT dur : Nat, ∀ db : List Appointment, ∀ biz t : Nat,
      t ∈ get_available_slots openT closeT dur db biz ↔
        ((∃ k, t = openT + 15 * k) ∧ t + dur ≤ closeT ∧
         ∀ a ∈ db, a.businessId = biz →
           (a.status = pending ∨ a.status = confirmed) →
           slotConflict t (t + dur) a = false)) ∧
    540 ∈ get_available_slots 540 1020 30 scenarioDb 7 ∧
    990 ∈ get_available_slots 540 1020 30 scenarioDb 7 ∧
    (∀ t ∈ get_available_slots 540 1020 30 scenarioDb 7,
      540 ≤ t ∧ t ≤ 990) := by
  have main : ∀ openT closeT dur : Nat, ∀ db : List Appointment,
      ∀ biz t : Nat,
      t ∈ get_available_slots openT closeT dur db biz ↔
        ((∃ k, t = openT + 15 * k) ∧ t + dur ≤ closeT ∧
         ∀ a ∈ db, a.businessId = biz →
           (a.status = pending ∨ a.status = confirmed) →
           slotConflict t (t + dur) a = false) := by
    intro openT closeT dur db biz t
    simp only [get_available_slots]
    rw [slotsLoop_mem]
    constructor
    · rintro ⟨hk, hfit, hfree⟩
      refine ⟨hk, hfit, fun a ha hb hs => ?_⟩
      apply hfree
      rw [List.mem_filter]
      refine ⟨ha, ?_⟩
      simp only [Bool.and_eq_true, Bool.or_eq_true, decide_eq_true_eq]
      exact ⟨hb, hs⟩
    · rintro ⟨hk, hfit, hfree⟩
      refine ⟨hk, hfit, fun a ha => ?_⟩
      rw [List.mem_filter] at ha
      rcases ha with ⟨ha, hp⟩
      simp only [Bool.and_eq_true, Bool.or_eq_true, decide_eq_true_eq] at hp
      exact hfree a ha hp.1 hp.2
  refine ⟨main, ?_, ?_, ?_⟩
  · refine (main 540 1020 30 scenarioDb 7 540).mpr ⟨⟨0, rfl⟩, by omega, ?_⟩
    intro a ha hb hs
    rcases List.mem_singleton.mp ha with rfl
    decide
  · refine (main 540 1020 30 scenarioDb 7 990).mpr ⟨⟨30, rfl⟩, by omega, ?_⟩
    intro a ha hb hs
    rcases List.mem_singleton.mp ha with rfl
    decide
  · intro t ht
    rcases (main 540 1020 30 scenarioDb 7 t).mp ht with ⟨⟨k, rfl⟩, hfit, -⟩
    omega

/-- Witness for `available_slots_spec`: bounds instantiated at the returned
slot 540 of the §8 scenario, whose membership the theorem itself supplies. -/
theorem available_slots_spec_witness : 540 ≤ 540 ∧ 540 ≤ 990 :=
  available_slots_spec.2.2.2 540 available_slots_spec.2.1

/-- Claim C6 counterexample.  A confirmed appointment that started 100
minutes before the sweep but whose end (start 9900 + duration 60 = 9960) is
only 40 minutes in the past — inside the claim's 1-hour grace period
measured from the END — is nevertheless cancelled by the sweep, because the
code's cutoff compares the START time `appointment_date` to `now − 1h`. -/
theorem mark_missed_uses_start_not_end :
    endedRecentlyApt.status = confirmed ∧
    endedRecentlyApt.end_time = 9960 ∧
    10000 < endedRecentlyApt.end_time + 60 ∧
    (markMissedStep 10000 endedRecentlyApt).status = cancelled := by
  decide

/-- Claim C6 as amended.  The daily sweep moves an appointment out of
`confirmed` if and only if its status is `confirmed` and its START time is
more than 1 hour in the past at sweep time (`appointment_date + 60 < now`),
in which case its status becomes `cancelled`; every other row — including
confirmed appointments whose start is within the hour, whatever their end —
is left unchanged. -/
theorem mark_missed_start_cutoff (now : Nat) (a : Appointment) :
    (markMissedStep now a ≠ a ↔
       a.status = confirmed ∧ a.appointmentDate + 60 < now) ∧
    (a.status = confirmed → a.appointmentDate + 60 < now →
       markMissedStep now a = { a with status := cancelled }) := by
  simp only [markMissedStep, Bool.and_eq_true, decide_eq_true_eq]
  by_cases h : a.appointmentDate < now - 60 ∧ a.status = confirmed
  · rw [if_pos h]
    refine ⟨iff_of_true ?_ ⟨h.2, by omega⟩, fun _ _ => rfl⟩
    intro heq
    have hst := congrArg Appointment.status heq
    rw [h.2] at hst
    simp at hst
  · rw [if_neg h]
    refine ⟨iff_of_false (by simp) ?_, ?_⟩
    · rintro ⟨hc, hd⟩
      exact h ⟨by omega, hc⟩
    · intro hc hd
      exact absurd ⟨by omega, hc⟩ h

/-- Witness for `mark_missed_start_cutoff` at a confirmed appointment whose
start is 100 minutes in the past. -/
theorem mark_missed_start_cutoff_witness :
    markMissedStep 10000 endedRecentlyApt =
      { endedRecentlyApt with status := cancelled } :=
  (mark_missed_start_cutoff 10000 endedRecentlyApt).2 rfl (by decide)

end Bookora
